import Mathlib

/-!
Verification of the `tick_counter` crate (src/lib.rs, src/bin/sample.rs).

The library reads hardware tick counters (RDTSC on x86_64, CNTVCT_EL0 on
aarch64) and determines the counter frequency either from a hardware
register (aarch64, CNTFRQ_EL0) or by timed calibration (x86_64).

Shallow embedding choices:
- Hardware counter and register reads are inline assembly whose results
  depend on the machine, so every such read is a parameter of the embedded
  function (the value the instruction returned in a given run).
- `u64` values are natural numbers; wrapping arithmetic applies `% 2^64`
  explicitly, and checked arithmetic returns `Option`.
- `f64` values are modelled by `F64`: either an exact rational or one of
  the IEEE-754 special values `+inf`, `-inf`, `NaN`.  Rounding of finite
  results to 53-bit significands is not modelled (all concrete values in
  the claims are small enough that rounding does not affect the stated
  integer-level facts); the special-value behaviour of division and the
  truncating, saturating `as u64` cast follow the IEEE-754 / Rust rules.
- `std::time::Duration` is modelled by its `secs`/`nanos` fields.
-/

/-- 2^64, the modulus of `u64` arithmetic. -/
def U64_MOD : ℕ := 18446744073709551616

/-- 2^64 - 1, the largest `u64` value. -/
def U64_MAX : ℕ := 18446744073709551615

/-- Wrapping `u64` subtraction (release-profile semantics of `a - b`). -/
def u64_wrapping_sub (a b : ℕ) : ℕ := (a + U64_MOD - b) % U64_MOD

/-- Checked `u64` subtraction: `none` models the panic of an
overflow-checked build on underflow. -/
def u64_checked_sub (a b : ℕ) : Option ℕ :=
  if b ≤ a then some (a - b) else none

/-- Model of `std::time::Duration`: whole seconds plus sub-second
nanoseconds. -/
structure Duration where
  secs : ℕ
  nanos : ℕ
deriving DecidableEq

/-- `Duration::from_secs`. -/
def Duration.from_secs (s : ℕ) : Duration := ⟨s, 0⟩

/-- `Duration::from_millis`. -/
def Duration.from_millis (m : ℕ) : Duration :=
  ⟨m / 1000, (m % 1000) * 1000000⟩

/-- `Duration::as_secs_f64`: seconds plus nanoseconds over 1e9 (exact in
the rational model of `f64`). -/
def Duration.as_secs_f64 (d : Duration) : ℚ :=
  (d.secs : ℚ) + (d.nanos : ℚ) / 1000000000

/-- `enum TickCounterFrequencyBase` from src/lib.rs: the origin of the
provided counter frequency. -/
inductive TickCounterFrequencyBase where
  | hardware
  | measured (d : Duration)
deriving DecidableEq

/-- Model of `f64`: an exact rational (rounding to 53-bit significands not
modelled) or an IEEE-754 special value. -/
inductive F64 where
  | finite (val : ℚ)
  | posInf
  | negInf
  | nan
deriving DecidableEq

/-- IEEE-754 `f64` division on the model: finite operands divide exactly
in ℚ; division of a nonzero finite by zero gives a signed infinity,
`0/0` gives NaN, and infinities and NaN propagate per IEEE-754.
(Signed zero is not modelled; a zero divisor is treated as `+0.0`,
the only zero reachable from a `u64` cast in this crate.) -/
def F64.div : F64 → F64 → F64
  | .nan, _ => .nan
  | _, .nan => .nan
  | .finite a, .finite b =>
      if b = 0 then
        (if a = 0 then .nan else if 0 < a then .posInf else .negInf)
      else .finite (a / b)
  | .finite _, .posInf => .finite 0
  | .finite _, .negInf => .finite 0
  | .posInf, .finite b => if 0 ≤ b then .posInf else .negInf
  | .negInf, .finite b => if 0 ≤ b then .negInf else .posInf
  | .posInf, .posInf => .nan
  | .posInf, .negInf => .nan
  | .negInf, .posInf => .nan
  | .negInf, .negInf => .nan

/-- The Rust `as u64` cast from `f64`: truncate toward zero and saturate
to the `u64` range; NaN casts to 0. `Nat.floor` is 0 on negatives and
equals truncation toward zero on nonnegatives, so `min U64_MAX ⌊q⌋₊` is
exactly the cast. -/
def F64.to_u64 : F64 → ℕ
  | .finite q => min U64_MAX ⌊q⌋₊
  | .posInf => U64_MAX
  | .negInf => 0
  | .nan => 0

/-- The `counter_stop - counter_start` tick delta of
`x86_64_measure_frequency` (plain `u64` subtraction, wrapping in a
release build). -/
def tick_delta (counter_start counter_stop : ℕ) : ℕ :=
  u64_wrapping_sub counter_stop counter_start

/-- `x86_64_measure_frequency` from src/lib.rs: takes a `start()` sample,
sleeps for `measure_duration`, takes a `stop()` sample, then computes
`((counter_stop - counter_start) as f64 / measure_duration.as_secs_f64()) as u64`.
The two samples returned by the bracketing `start()`/`stop()` reads are
parameters; the `u64 → f64` cast of the delta is exact in the model. -/
def x86_64_measure_frequency (counter_start counter_stop : ℕ)
    (measure_duration : Duration) : ℕ :=
  F64.to_u64 (F64.div (.finite ((tick_delta counter_start counter_stop : ℚ)))
    (.finite measure_duration.as_secs_f64))

/-- `frequency()` for `target_arch = "x86_64"` from src/lib.rs: calibrates
over a hard-coded `Duration::from_secs(1)` and tags the result
`Measured` with that same duration. -/
def frequency_x86_64 (counter_start counter_stop : ℕ) :
    ℕ × TickCounterFrequencyBase :=
  let measure_duration := Duration.from_secs 1
  let frequency_base := TickCounterFrequencyBase.measured measure_duration
  (x86_64_measure_frequency counter_start counter_stop measure_duration,
   frequency_base)

/-- `frequency()` for `target_arch = "aarch64"` from src/lib.rs: returns
the value read from the `CNTFRQ_EL0` register (a parameter here) tagged
`Hardware`. -/
def frequency_aarch64 (cntfrq_el0 : ℕ) : ℕ × TickCounterFrequencyBase :=
  (cntfrq_el0, TickCounterFrequencyBase.hardware)

/-- `precision` from src/lib.rs (named `precision_nanoseconds` in the
spec): `1.0e9_f64 / (frequency as f64)`.  Total: the `f64` division
never panics; a degenerate input flows into an IEEE-754 special value. -/
def precision (frequency : ℕ) : F64 :=
  F64.div (.finite 1000000000) (.finite (frequency : ℚ))

/-- Modelled from the spec: the spec's words for the calibration quotient
("round to the nearest integer Hz"), for comparison with the source's
truncating `as u64` cast. -/
def x86_64_measure_frequency_roundNearest (counter_start counter_stop : ℕ)
    (measure_duration : Duration) : ℕ :=
  (round ((tick_delta counter_start counter_stop : ℚ) /
    measure_duration.as_secs_f64)).toNat

/-- Modelled from the spec: the `TickCounter` facade (used by
src/bin/sample.rs as `TickCounter::current()` / `.elapsed()` but absent
from src/): "capture() -> Handle stores one start() sample". -/
structure TickCounter where
  tick : ℕ

/-- Modelled from the spec: `TickCounter::current()` stores one `start()`
sample (the sample value is a parameter). -/
def TickCounter.current (start_sample : ℕ) : TickCounter :=
  { tick := start_sample }

/-- Modelled from the spec: `Handle.elapsed() -> ticks` calls `stop()`
(its sample is a parameter) and returns the unsigned difference against
the stored sample. -/
def TickCounter.elapsed (tc : TickCounter) (stop_sample : ℕ) : ℕ :=
  u64_wrapping_sub stop_sample tc.tick

/-! ## Helper lemmas -/

lemma tick_delta_lt_mod (cs ss : ℕ) : tick_delta cs ss < U64_MOD := by
  have h : 0 < U64_MOD := by norm_num [U64_MOD]
  exact Nat.mod_lt _ h

lemma measure_frequency_eq_floor (cs ss : ℕ) (d : Duration)
    (hd : 0 < d.as_secs_f64)
    (hfit : ⌊(tick_delta cs ss : ℚ) / d.as_secs_f64⌋₊ ≤ U64_MAX) :
    x86_64_measure_frequency cs ss d =
      ⌊(tick_delta cs ss : ℚ) / d.as_secs_f64⌋₊ := by
  unfold x86_64_measure_frequency
  simp only [F64.div]
  rw [if_neg (ne_of_gt hd)]
  simp only [F64.to_u64]
  exact min_eq_right hfit

lemma one_second_as_secs : (Duration.from_secs 1).as_secs_f64 = 1 := by
  norm_num [Duration.from_secs, Duration.as_secs_f64]

lemma frequency_x86_64_fst (cs ss : ℕ) :
    (frequency_x86_64 cs ss).1 = tick_delta cs ss := by
  show x86_64_measure_frequency cs ss (Duration.from_secs 1) = tick_delta cs ss
  rw [measure_frequency_eq_floor cs ss (Duration.from_secs 1)
    (by rw [one_second_as_secs]; norm_num)
    (by rw [one_second_as_secs, div_one, Nat.floor_natCast]
        have := tick_delta_lt_mod cs ss
        unfold U64_MOD at this
        unfold U64_MAX
        omega)]
  rw [one_second_as_secs, div_one, Nat.floor_natCast]

/-! ## Claims -/

/-- C1: On the calibration backend (x86_64), every call to `frequency()`
returns a pair whose `FrequencyBase` is `Measured(d)` with `d` exactly
the calibration interval actually passed to `x86_64_measure_frequency`,
and the default interval is 1 second (equal to 1000 ms). -/
theorem frequency_x86_64_measured_one_second (cs ss : ℕ) :
    (frequency_x86_64 cs ss).2 =
      TickCounterFrequencyBase.measured (Duration.from_secs 1) ∧
    (frequency_x86_64 cs ss).1 =
      x86_64_measure_frequency cs ss (Duration.from_secs 1) ∧
    Duration.from_secs 1 = Duration.from_millis 1000 :=
  ⟨rfl, rfl, by decide⟩

/-- C2: for every positive `u64` input (positivity is the spec's stated
precondition; the zero case is C3), `precision` returns exactly the
floating-point value 1e9 / frequency_hz, i.e. the finite quotient in the
exact model. -/
theorem precision_eq_1e9_div (f : ℕ) (h : 0 < f) :
    precision f = F64.finite (1000000000 / (f : ℚ)) := by
  unfold precision
  simp only [F64.div]
  rw [if_neg (by exact_mod_cast Nat.pos_iff_ne_zero.mp h)]

/-- Witness for C2 at frequency 4 Hz. -/
theorem precision_eq_1e9_div_witness :
    0 < 4 ∧ precision 4 = F64.finite (1000000000 / (4 : ℚ)) :=
  ⟨by norm_num, precision_eq_1e9_div 4 (by norm_num)⟩

/-- C3: `precision 0` is the IEEE-754 value +∞; the embedded function is
total, so no panic or error path exists. -/
theorem precision_zero_eq_posInf : precision 0 = F64.posInf := by
  unfold precision
  simp only [F64.div, Nat.cast_zero]
  norm_num

/-- C4 counterexample: with tick samples 0 and 3 over a 2-second interval
the code truncates the quotient 1.5 to 1 Hz, while the claimed
round-to-nearest would give 2 Hz. -/
theorem measure_frequency_truncates_cex :
    x86_64_measure_frequency 0 3 (Duration.from_secs 2) = 1 ∧
    x86_64_measure_frequency_roundNearest 0 3 (Duration.from_secs 2) = 2 ∧
    x86_64_measure_frequency 0 3 (Duration.from_secs 2) ≠
      x86_64_measure_frequency_roundNearest 0 3 (Duration.from_secs 2) := by
  have hdelta : tick_delta 0 3 = 3 := by decide
  have hsecs : (Duration.from_secs 2).as_secs_f64 = 2 := by
    norm_num [Duration.from_secs, Duration.as_secs_f64]
  have hq : ((tick_delta 0 3 : ℚ)) / (Duration.from_secs 2).as_secs_f64 = 3 / 2 := by
    rw [hdelta, hsecs]
    norm_num
  have hfl : ⌊(tick_delta 0 3 : ℚ) / (Duration.from_secs 2).as_secs_f64⌋₊ = 1 := by
    rw [hq, Nat.floor_eq_iff (by norm_num)]
    norm_num
  have hcode : x86_64_measure_frequency 0 3 (Duration.from_secs 2) = 1 := by
    rw [measure_frequency_eq_floor 0 3 (Duration.from_secs 2)
      (by rw [hsecs]; norm_num)
      (by rw [hfl]; norm_num [U64_MAX])]
    exact hfl
  have hspec : x86_64_measure_frequency_roundNearest 0 3 (Duration.from_secs 2) = 2 := by
    unfold x86_64_measure_frequency_roundNearest
    rw [hq]
    norm_num [round_eq]
    decide
  exact ⟨hcode, hspec, by rw [hcode, hspec]; norm_num⟩

/-- C4 (amended): the x86_64 calibration takes a start() sample, sleeps
for the requested interval, takes a stop() sample, divides the tick
delta by the elapsed seconds and truncates (not rounds) the quotient
toward zero, i.e. takes its floor, whenever the interval is positive and
the quotient fits in `u64`. -/
theorem measure_frequency_truncates (cs ss : ℕ) (d : Duration)
    (hd : 0 < d.as_secs_f64)
    (hfit : ⌊(tick_delta cs ss : ℚ) / d.as_secs_f64⌋₊ ≤ U64_MAX) :
    x86_64_measure_frequency cs ss d =
      ⌊(tick_delta cs ss : ℚ) / d.as_secs_f64⌋₊ :=
  measure_frequency_eq_floor cs ss d hd hfit

/-- Witness for C4 at samples 10, 25 over 2 seconds: 15/2 truncates to 7. -/
theorem measure_frequency_truncates_witness :
    x86_64_measure_frequency 10 25 (Duration.from_secs 2) =
      ⌊(tick_delta 10 25 : ℚ) / (Duration.from_secs 2).as_secs_f64⌋₊ :=
  measure_frequency_truncates 10 25 (Duration.from_secs 2)
    (by norm_num [Duration.from_secs, Duration.as_secs_f64])
    (by have hdelta : tick_delta 10 25 = 15 := by decide
        have hsecs : (Duration.from_secs 2).as_secs_f64 = 2 := by
          norm_num [Duration.from_secs, Duration.as_secs_f64]
        rw [hdelta, hsecs]
        have hq : ((15 : ℕ) : ℚ) / 2 = 15 / 2 := by norm_num
        have hfl : ⌊(15 : ℚ) / 2⌋₊ = 7 := by
          rw [Nat.floor_eq_iff (by norm_num)]
          norm_num
        rw [hq, hfl]
        norm_num [U64_MAX])

/-- C5 counterexample: the code does not enforce positivity of the
returned frequency; a run in which the counter does not advance during
the calibration sleep (equal start and stop samples) yields 0 Hz. -/
theorem frequency_x86_64_can_be_zero : (frequency_x86_64 5 5).1 = 0 := by
  rw [frequency_x86_64_fst]
  decide

/-- C5 (amended): `frequency()` returns strictly positive Hz provided the
hardware makes progress: on aarch64 the `CNTFRQ_EL0` register reads a
positive value, and on x86_64 the counter advances by at least one tick
over the 1-second calibration window. -/
theorem frequency_pos_of_progress :
    (∀ r : ℕ, 0 < r → 0 < (frequency_aarch64 r).1) ∧
    (∀ cs ss : ℕ, 0 < tick_delta cs ss → 0 < (frequency_x86_64 cs ss).1) := by
  constructor
  · intro r hr
    exact hr
  · intro cs ss hdelta
    rw [frequency_x86_64_fst]
    exact hdelta

/-- Witness for C5: the aarch64 backend at a 24 MHz register value and the
x86_64 backend on a run with samples 0 and 1000 both report positive Hz. -/
theorem frequency_pos_of_progress_witness :
    0 < (frequency_aarch64 24000000).1 ∧ 0 < (frequency_x86_64 0 1000).1 :=
  ⟨frequency_pos_of_progress.1 24000000 (by norm_num),
   frequency_pos_of_progress.2 0 1000 (by decide)⟩

/-- C6: on the aarch64 backend, `frequency()` returns the value read from
the hardware frequency register tagged `Hardware`, never `Measured`. -/
theorem frequency_aarch64_hardware_tag (r : ℕ) :
    (frequency_aarch64 r).1 = r ∧
    (frequency_aarch64 r).2 = TickCounterFrequencyBase.hardware ∧
    ∀ d : Duration, (frequency_aarch64 r).2 ≠ TickCounterFrequencyBase.measured d :=
  ⟨rfl, rfl, fun _ h => TickCounterFrequencyBase.noConfusion h⟩

/-- C7: `precision 24_000_000` truncated to an integer (the `as u64`
cast) equals 41 nanoseconds. -/
theorem precision_24MHz_truncates_to_41 :
    F64.to_u64 (precision 24000000) = 41 := by
  have hp : precision 24000000 = F64.finite (1000000000 / (24000000 : ℚ)) := by
    unfold precision
    simp only [F64.div]
    rw [if_neg (by norm_num)]
    norm_num
  rw [hp]
  simp only [F64.to_u64]
  have hq : (1000000000 : ℚ) / 24000000 = 125 / 3 := by norm_num
  have hfl : ⌊(1000000000 : ℚ) / 24000000⌋₊ = 41 := by
    rw [hq, Nat.floor_eq_iff (by norm_num)]
    norm_num
  rw [hfl]
  norm_num [U64_MAX]

/-- C8: the `TickCounter` facade stores exactly the `start()` sample it
captured, and `elapsed()` returns the unsigned (wrapping u64) difference
of the `stop()` sample against the stored sample. -/
theorem tickCounter_current_elapsed_contract (s e : ℕ) :
    (TickCounter.current s).tick = s ∧
    (TickCounter.current s).elapsed e = u64_wrapping_sub e s :=
  ⟨rfl, rfl⟩

/-- C10: the tick-delta subtraction in `x86_64_measure_frequency` never
underflows when the stop sample is at least the start sample — the
checked subtraction succeeds and the wrapping subtraction agrees with
plain subtraction — while a stop sample below the start sample wraps
modulo 2^64 in a release build and panics (checked subtraction fails) in
an overflow-checked build. -/
theorem measure_frequency_delta_no_underflow (cs ss : ℕ)
    (hcs : cs < U64_MOD) (hss : ss < U64_MOD) :
    (cs ≤ ss →
      u64_checked_sub ss cs = some (tick_delta cs ss) ∧
      tick_delta cs ss = ss - cs) ∧
    (ss < cs →
      u64_checked_sub ss cs = none ∧
      tick_delta cs ss = ss + U64_MOD - cs) := by
  unfold U64_MOD at hcs hss
  unfold u64_checked_sub tick_delta u64_wrapping_sub U64_MOD
  constructor
  · intro h
    rw [if_pos h]
    have hmod : (ss + 18446744073709551616 - cs) % 18446744073709551616 = ss - cs := by
      omega
    rw [hmod]
    exact ⟨rfl, rfl⟩
  · intro h
    rw [if_neg (by omega)]
    have hmod : (ss + 18446744073709551616 - cs) % 18446744073709551616 =
        ss + 18446744073709551616 - cs := by
      omega
    rw [hmod]
    exact ⟨rfl, rfl⟩

/-- Witness for C10 at samples 10 (start) and 25 (stop). -/
theorem measure_frequency_delta_no_underflow_witness :
    u64_checked_sub 25 10 = some (tick_delta 10 25) ∧ tick_delta 10 25 = 25 - 10 :=
  (measure_frequency_delta_no_underflow 10 25 (by norm_num [U64_MOD])
    (by norm_num [U64_MOD])).1 (by norm_num)
